import Mathlib

/-!
Verification development for the `ckb-vm-signal-profiler` crate.

The embedding follows `src/lib.rs`. External collaborators (the addr2line
resolver, the object parser, the OS signal calls, the VM) are modelled as
behavioural interfaces: a record of the outcomes the library calls can
return, so that the control flow of `src/lib.rs` itself is translated
statement by statement. Rust panics (`unwrap` / `expect`) are modelled as
`none` / an explicit `panic` outcome; `Result` is `Except String`.

The `frames` and `timer` modules of the repository are not part of the
provided sources; `Symbol`, `Frame`, `Report` and `Timer` below are
modelled from the spec (sections 3, 4.1, 4.3) and carry doc comments
saying so.
-/

set_option autoImplicit false

namespace CkbProfiler

/-- Behavioural model of `addr2line::Location` for one found location:
`file` is optional and `line` is optional (a `u32` in the library,
embedded as `Nat`). -/
structure LocationM where
  file : Option String
  line : Option Nat
deriving DecidableEq

/-- Behavioural model of one function datum yielded by the addr2line frame
iterator: `raw_name()` returns a `Result` (error embedded as `Except.error`)
and `language` is optional (a DWARF language code, embedded as `Nat`). -/
structure FunctionM where
  raw_name : Except String String
  language : Option Nat

/-- Behavioural model of one frame yielded by the addr2line frame iterator:
its `function` field is optional. -/
structure FrameDataM where
  function : Option FunctionM

/-- Behavioural model of the external `addr2line::Context` consumed by
`extract_frame`: the outcomes of its two query methods. `find_frames`
returns the full list of frames the iterator would yield; an error of the
initial call or of any `next()` step is folded into the `Except.error`
case, since every such error is immediately `unwrap`-ed by the source. -/
structure AddrContextM where
  find_location : Nat → Except String (Option LocationM)
  find_frames : Nat → Except String (List FrameDataM)

/-- `DebugContext` of `src/lib.rs`: the addr2line context plus the raw
bytes of the `.debug_frame` section (the source wraps them in a gimli
reader; only the bytes matter here). -/
structure DebugContext where
  addr_context : AddrContextM
  debug_frame : List Nat

/-- Modelled from the spec: `Symbol` lives in the `frames` module, which is
absent from the provided sources. Spec section 3: all three fields are
optional. -/
structure Symbol where
  name : Option String
  line : Option Nat
  file : Option String
deriving DecidableEq

/-- Modelled from the spec: `Frame` of the `frames` module, an ordered
sequence of Symbols; `Frame::default()` is the empty sequence and the
source pushes one `Symbol` into it. -/
structure Frame where
  «stacks» : List Symbol
deriving DecidableEq

/-- `Frame::default()`. -/
def Frame.default : Frame := ⟨[]⟩

/-- Modelled from the spec: `Report` of the `frames` module, a mapping from
`Frame` to an occurrence count (spec section 4.3), embedded as an
association list. -/
structure Report where
  counts : List (Frame × Nat)

/-- `Report::default()`: the empty mapping. -/
def Report.default : Report := ⟨[]⟩

/-- Increment helper for `Report.record`: bump the count of `f`, inserting
it at 1 on first sight. -/
def recordList : List (Frame × Nat) → Frame → List (Frame × Nat)
  | [], f => [(f, 1)]
  | (g, n) :: rest, f => if g = f then (g, n + 1) :: rest else (g, n) :: recordList rest f

/-- Modelled from the spec: `Report::record` increments `counts[frame]` by
1, creating the entry at 1 on first sight (spec section 4.3). -/
def Report.record (r : Report) (f : Frame) : Report :=
  ⟨recordList r.counts f⟩

/-- Modelled from the spec: `Timer` of the `timer` module. Constructing it
is the arming step (spec section 4.1: delivery begins before `new`
returns); the embedding only retains the requested frequency. -/
structure Timer where
  frequency_per_sec : Int

/-- `Timer::new`. -/
def Timer.new (frequency_per_sec : Int) : Timer := ⟨frequency_per_sec⟩

/-- `Profiler` of `src/lib.rs`: output path, raw VM address (`usize`),
debug context, timer and report. -/
structure Profiler where
  fname : String
  machine : Nat
  context : DebugContext
  timer : Timer
  report : Report

/-- The loop body of the closure `sprint_fun` inside `extract_frame`
(`src/lib.rs` lines 61 to 76), with the frame iterator embedded as the
list of frames it yields and the accumulator `s` explicit. The loop keeps
overwriting `s` with the demangled name of each frame that carries a
function and breaks at the first frame without one (or at iterator end);
a failing `raw_name()` is `unwrap`-ed, hence `none` models that panic.
`dm` is the external `addr2line::demangle_auto`. -/
def sprint_fun (dm : String → Option Nat → String) :
    List FrameDataM → String → Option String
  | [], s => some s
  | d :: rest, s =>
    match d.function with
    | none => some s
    | some f =>
      match f.raw_name with
      | .error _ => none
      | .ok raw => sprint_fun dm rest (dm raw f.language)

/-- The file and line extraction of `extract_frame` (`src/lib.rs` lines 53
to 59): when a location was found, `loc.file.as_ref().unwrap()` panics if
the location carries no file (modelled as `none`); otherwise the file and
the optional line are taken verbatim. -/
def locFileLine : Option LocationM → Option (Option String × Option Nat)
  | none => some (none, none)
  | some l =>
    match l.file with
    | none => none
    | some f => some (some f, l.line)

/-- `extract_frame` of `src/lib.rs` (lines 47 to 87). Each `unwrap` of the
source is a `none` of the embedding: the function aborts when the location
lookup errors, when a found location has no file, when the frame lookup or
iteration errors, or when a scanned raw name is unavailable. On success it
returns the single-symbol frame built at lines 79 to 86. `dm` is the
external `addr2line::demangle_auto`. -/
def extract_frame (dm : String → Option Nat → String) (pc : Nat)
    (context : DebugContext) : Option Frame :=
  match context.addr_context.find_location pc with
  | .error _ => none
  | .ok loc =>
    match locFileLine loc with
    | none => none
    | some fl =>
      match context.addr_context.find_frames pc with
      | .error _ => none
      | .ok frames =>
        match sprint_fun dm frames "??" with
        | none => none
        | some func =>
          some ⟨[{ name := some func, line := fl.2, file := fl.1 }]⟩

/-- The functions of the maximal initial segment of the frame iteration in
which every frame carries a function: exactly the functions the loop of
`sprint_fun` scans before its break. -/
def scannedFns : List FrameDataM → List FunctionM
  | [] => []
  | d :: rest =>
    match d.function with
    | none => []
    | some f => f :: scannedFns rest

/-- All functions yielded by the frame lookup, gaps skipped. -/
def yieldedFns (frames : List FrameDataM) : List FunctionM :=
  frames.filterMap (fun d => d.function)

/-- Last element of a function list. -/
def lastFn : List FunctionM → Option FunctionM
  | [] => none
  | [f] => some f
  | _ :: g :: t => lastFn (g :: t)

/-- The payload of a successful `raw_name()`. -/
def rawNameD (f : FunctionM) : String :=
  match f.raw_name with
  | .ok r => r
  | .error _ => ""

/-- Reference description of the name `sprint_fun` computes from start
accumulator `s`: the demangled name of the last scanned function, or `s`
when the scan finds none. -/
def sprintAux (dm : String → Option Nat → String) (frames : List FrameDataM)
    (s : String) : String :=
  ((lastFn (scannedFns frames)).map (fun f => dm (rawNameD f) f.language)).getD s

/-- The name stored by `extract_frame`: `sprintAux` started at the
sentinel. -/
def sprintName (dm : String → Option Nat → String) (frames : List FrameDataM) : String :=
  sprintAux dm frames "??"

/-- Behavioural model of an object-file section: the outcome of
`uncompressed_data().ok()`, with the library error case already folded to
`none` as the source does. -/
structure SectionM where
  uncompressed_data : Option (List Nat)

/-- Behavioural model of a successfully parsed `addr2line::object::File`:
its section table and the outcome `Context::from_dwarf` produces on the
dwarf loaded from it. -/
structure ParsedFile where
  section_by_name : String → Option SectionM
  from_dwarf : Except String AddrContextM

/-- Behavioural model of the program image handed to `build_context`: the
outcome of `object::File::parse`. -/
structure Image where
  parse : Except String ParsedFile

/-- Name of the debug-frame section
(`addr2line::gimli::SectionId::DebugFrame.name()`). -/
def debugFrameSectionName : String := ".debug_frame"

/-- Error message of `build_context` when the debug-frame lookup yields no
data (`src/lib.rs` line 131). -/
def missingDebugMsg : String := "Provided binary is missing .debug_frame section!"

/-- The debug-frame bytes of a parsed file:
`file.section_by_name(".debug_frame").and_then(uncompressed_data().ok())`
(`src/lib.rs` lines 128 to 131). -/
def debugFrameData (f : ParsedFile) : Option (List Nat) :=
  (f.section_by_name debugFrameSectionName).bind SectionM.uncompressed_data

/-- The section loader closure handed to `Dwarf::load` (`src/lib.rs` lines
113 to 122): a missing or uncompressable section becomes the empty slice
and the closure always returns `Ok`. -/
def dwarfSection (f : ParsedFile) (id : String) : List Nat :=
  ((f.section_by_name id).bind SectionM.uncompressed_data).getD []

/-- Outcome of `Dwarf::load` at `src/lib.rs` line 113: it fails only when
the loader closure fails, and the closure of the source always returns
`Ok`, so this step cannot fail and the branch mapped to the dwarf load
error message is unreachable. -/
def dwarf_load_result (_f : ParsedFile) : Except String Unit := .ok ()

/-- `build_context` of `src/lib.rs` (lines 105 to 141), step by step:
parse the container, load the dwarf (infallible, see `dwarf_load_result`),
create the addr2line context, then extract the debug-frame bytes. -/
def build_context (program : Image) : Except String DebugContext :=
  match program.parse with
  | .error e => .error ("object parsing error: " ++ e)
  | .ok file =>
    match dwarf_load_result file with
    | .error e => .error ("dwarf load error: " ++ e)
    | .ok _ =>
      match file.from_dwarf with
      | .error e => .error ("context creation error: " ++ e)
      | .ok addr_context =>
        match debugFrameData file with
        | none => .error missingDebugMsg
        | some data => .ok ⟨addr_context, data⟩

/-- Result discriminator of a public operation: normal return, an `Err`
return, or a Rust panic (an `expect` or `unwrap` firing). -/
inductive Outcome
  | ok
  | err (msg : String)
  | panic
deriving DecidableEq

/-- State of the process-wide SIGPROF disposition: untouched, the
profiling handler installed by `start_profiler`, or `SIG_IGN` installed by
`stop_profiler`. -/
inductive SigHandlerState
  | sigDfl
  | installed
  | sigIgn
deriving DecidableEq

/-- The process-wide mutable state of `src/lib.rs`: the `PROFILER` slot,
its mutex poison flag, and the SIGPROF disposition. -/
structure GlobalState where
  slot : Option Profiler
  handler : SigHandlerState
  poisoned : Bool

/-- `is_profiler_started` (`src/lib.rs` lines 101 to 103):
`lock().expect(..)` panics when the mutex is poisoned (modelled `none`),
otherwise the slot presence is returned. -/
def is_profiler_started (s : GlobalState) : Option Bool :=
  if s.poisoned then none else some s.slot.isSome

/-- Steps of the success path of `start_profiler`, in source order: the
started check (line 149), `build_context` (line 153), the `sigaction`
install (line 162), the field-by-field construction of the `Profiler`
record (lines 165 to 171, fields evaluated in written order, so
`Timer::new` runs fourth and `Report::default` fifth), and the final store
into the `PROFILER` slot (line 173). `Timer::new` is the arming step: per
spec section 4.1 tick delivery begins before it returns. -/
inductive StartEvent
  | checkStarted
  | buildCtx
  | installHandler
  | mkFname
  | mkMachine
  | mkContextField
  | armTimer
  | mkReport
  | populateSlot
deriving BEq, DecidableEq

/-- The event trace of the success path of `start_profiler`. -/
def startSuccessTrace : List StartEvent :=
  [.checkStarted, .buildCtx, .installHandler, .mkFname, .mkMachine,
   .mkContextField, .armTimer, .mkReport, .populateSlot]

/-- One event happens strictly before another in a trace. -/
abbrev eventBefore (t : List StartEvent) (a b : StartEvent) : Prop :=
  t.indexOf a < t.indexOf b

/-- Result of `start_profiler`: outcome, the state left behind, and the
trace of completed steps. -/
structure StartResult where
  outcome : Outcome
  state : GlobalState
  trace : List StartEvent

/-- `start_profiler` of `src/lib.rs` (lines 143 to 176). The OS outcome of
the `sigaction` call is a parameter (`sigactionResult`); on its error the
handler is not installed. On success the handler is installed first, then
the `Profiler` record is built (arming the timer during construction) and
only afterwards stored into the slot. -/
def start_profiler (fname : String) (machineAddr : Nat) (program : Image)
    (frequency_per_sec : Int) (sigactionResult : Except String Unit)
    (s : GlobalState) : StartResult :=
  match is_profiler_started s with
  | none => ⟨.panic, s, [.checkStarted]⟩
  | some true => ⟨.err "Profiler already started!", s, [.checkStarted]⟩
  | some false =>
    match build_context program with
    | .error e => ⟨.err e, s, [.checkStarted, .buildCtx]⟩
    | .ok context =>
      match sigactionResult with
      | .error e => ⟨.err ("sigaction install error: " ++ e), s,
                     [.checkStarted, .buildCtx]⟩
      | .ok _ =>
        ⟨.ok,
         { s with handler := .installed,
                  slot := some ⟨fname, machineAddr, context,
                                Timer.new frequency_per_sec, Report.default⟩ },
         startSuccessTrace⟩

/-- External outcomes consumed by `stop_profiler`: the `Result` values of
`Report::pprof`, `Message::write_to_bytes`, `fs::write` and the
`signal(SIGPROF, SigIgn)` call. -/
structure StopEnv where
  pprofResult : Except String Unit
  writeBytesResult : Except String Unit
  fsWriteResult : Except String Unit
  signalResult : Except String Unit

/-- Result of `stop_profiler`: outcome and the state left behind. -/
structure StopResult where
  outcome : Outcome
  state : GlobalState

/-- `stop_profiler` of `src/lib.rs` (lines 178 to 204). The three `expect`
calls at lines 190, 193 and 194 panic on serialization or write failure
while the guard is held: the slot keeps its profiler, the handler stays
installed and the mutex becomes poisoned. A failing uninstall at line 199
returns `Err` before line 201, so the slot also stays populated there.
Only the full success path ignores SIGPROF and clears the slot. -/
def stop_profiler (env : StopEnv) (s : GlobalState) : StopResult :=
  if s.poisoned then ⟨.panic, s⟩
  else
    match s.slot with
    | none => ⟨.err "Profiler not started!", s⟩
    | some _ =>
      match env.pprofResult with
      | .error _ => ⟨.panic, { s with poisoned := true }⟩
      | .ok _ =>
        match env.writeBytesResult with
        | .error _ => ⟨.panic, { s with poisoned := true }⟩
        | .ok _ =>
          match env.fsWriteResult with
          | .error _ => ⟨.panic, { s with poisoned := true }⟩
          | .ok _ =>
            match env.signalResult with
            | .error e => ⟨.err ("sigaction uninstall error: " ++ e), s⟩
            | .ok _ => ⟨.ok, { s with slot := none, handler := .sigIgn }⟩

/-- External inputs of one tick handler invocation: whether another thread
currently holds the `PROFILER` mutex, the PC read of the VM at a given raw
machine address, and the external demangler. -/
structure TickEnv where
  contended : Bool
  readPC : Nat → Nat
  demangle : String → Option Nat → String

/-- Result of one tick handler invocation. `waited` records that the
handler blocked on the mutex before proceeding (the source calls the
blocking `lock()`, so it waits exactly when the mutex is contended);
`recorded` records that a sample was stored. -/
structure TickResult where
  waited : Bool
  outcome : Outcome
  recorded : Bool

/-- `perf_signal_handler` of `src/lib.rs` (lines 89 to 99). The handler
takes the slot mutex with the blocking `lock()` and `expect`: it waits
while the mutex is contended and panics when the mutex is poisoned. With
the guard held, an absent slot makes the tick a no-op; a populated slot
has its report extended with the frame resolved from the current VM PC. A
panic inside `extract_frame` fires while the guard is held and poisons the
mutex. -/
def perf_signal_handler (env : TickEnv) (s : GlobalState) :
    TickResult × GlobalState :=
  let waited := env.contended
  if s.poisoned then (⟨waited, .panic, false⟩, s)
  else
    match s.slot with
    | none => (⟨waited, .ok, false⟩, s)
    | some profiler =>
      match extract_frame env.demangle (env.readPC profiler.machine) profiler.context with
      | none => (⟨waited, .panic, false⟩, { s with poisoned := true })
      | some frame =>
        (⟨waited, .ok, true⟩,
         { s with slot := some { profiler with report := profiler.report.record frame } })

/-! Concrete instances used by the counterexamples and witnesses below. -/

/-- Identity demangler: keeps the raw name. -/
def dmId : String → Option Nat → String := fun s _ => s

/-- Context whose lookups succeed and find nothing. -/
def addrCtxTrivial : AddrContextM :=
  ⟨fun _ => .ok none, fun _ => .ok []⟩

/-- Debug context around `addrCtxTrivial`. -/
def ctxTrivial : DebugContext := ⟨addrCtxTrivial, []⟩

/-- The frame `extract_frame` produces under `ctxTrivial`. -/
def frameTrivial : Frame := ⟨[{ name := some "??", line := none, file := none }]⟩

/-- A populated profiler record. -/
def profilerDummy : Profiler := ⟨"out.pb", 0, ctxTrivial, Timer.new 99, Report.default⟩

/-- Inactive, healthy state. -/
def freshState : GlobalState := ⟨none, .sigDfl, false⟩

/-- Active state: populated slot, handler installed. -/
def activeState : GlobalState := ⟨some profilerDummy, .installed, false⟩

/-- State whose mutex is poisoned. -/
def poisonedState : GlobalState := ⟨none, .sigDfl, true⟩

/-- Tick inputs with a free mutex. -/
def tickEnvPlain : TickEnv := ⟨false, fun _ => 0, dmId⟩

/-- Tick inputs with a contended mutex. -/
def tickEnvContended : TickEnv := ⟨true, fun _ => 0, dmId⟩

/-- Stop inputs where every external call succeeds. -/
def stopEnvOk : StopEnv := ⟨.ok (), .ok (), .ok (), .ok ()⟩

/-- Stop inputs where `Report::pprof` fails. -/
def stopEnvSerFail : StopEnv := ⟨.error "boom", .ok (), .ok (), .ok ()⟩

/-- A section holding (empty) debug-frame data. -/
def secOK : SectionM := ⟨some []⟩

/-- A parsed file with a usable debug-frame section and a working context. -/
def fOK : ParsedFile :=
  ⟨fun n => if n = debugFrameSectionName then some secOK else none, .ok addrCtxTrivial⟩

/-- An image that builds successfully. -/
def imgOK : Image := ⟨.ok fOK⟩

/-- An image whose container parse fails. -/
def imgParseFail : Image := ⟨.error "bad"⟩

/-- A parsed file with malformed debug records (context creation fails)
and no debug-frame section at all. -/
def fC8 : ParsedFile := ⟨fun _ => none, .error "malformed"⟩

/-- An image that parses but has malformed debug records and no
debug-frame section. -/
def imgC8 : Image := ⟨.ok fC8⟩

/-- Context whose location lookup finds a location without a file. -/
def acNoFile : AddrContextM :=
  ⟨fun _ => .ok (some ⟨none, some 5⟩), fun _ => .ok []⟩

/-- A parsed file whose dwarf yields `acNoFile` and which carries a
debug-frame section, so `build_context` succeeds on it. -/
def fNoFile : ParsedFile :=
  ⟨fun n => if n = debugFrameSectionName then some secOK else none, .ok acNoFile⟩

/-- Image wrapping `fNoFile`. -/
def imgNoFile : Image := ⟨.ok fNoFile⟩

/-- The debug context `build_context` produces from `imgNoFile`. -/
def ctxNoFile : DebugContext := ⟨acNoFile, []⟩

/-- Context whose location lookup reports line number zero. -/
def acLine0 : AddrContextM :=
  ⟨fun _ => .ok (some ⟨some "f.c", some 0⟩), fun _ => .ok []⟩

/-- Debug context around `acLine0`. -/
def ctxLine0 : DebugContext := ⟨acLine0, []⟩

/-- Function named `b`. -/
def fnB : FunctionM := ⟨.ok "b", none⟩

/-- Function named `a`. -/
def fnA : FunctionM := ⟨.ok "a", none⟩

/-- A frame iteration whose first frame carries no function while its
second frame carries the function `b`. -/
def framesGap : List FrameDataM := [⟨none⟩, ⟨some fnB⟩]

/-- Context whose frame lookup yields `framesGap`. -/
def ctxGap : DebugContext := ⟨⟨fun _ => .ok none, fun _ => .ok framesGap⟩, []⟩

/-- A frame iteration of two frames that both carry functions. -/
def framesInline : List FrameDataM := [⟨some fnA⟩, ⟨some fnB⟩]

/-- Context whose frame lookup yields `framesInline`. -/
def ctxInline : DebugContext := ⟨⟨fun _ => .ok none, fun _ => .ok framesInline⟩, []⟩

/-! Helper lemmas shared by the claim theorems. -/

/-- Reading off the payload of a successful `raw_name()`. -/
theorem rawNameD_ok {f : FunctionM} {r : String} (h : f.raw_name = Except.ok r) :
    rawNameD f = r := by
  unfold rawNameD
  rw [h]

/-- `lastFn` of a nonempty list is some element. -/
theorem lastFn_cons (g : FunctionM) (t : List FunctionM) :
    ∃ x, lastFn (g :: t) = some x := by
  induction t generalizing g with
  | nil => exact ⟨g, rfl⟩
  | cons g2 t2 ih =>
    obtain ⟨x, hx⟩ := ih g2
    exact ⟨x, hx⟩

/-- `lastFn` skips the head of a list of two or more elements. -/
theorem lastFn_cons_cons (a b : FunctionM) (t : List FunctionM) :
    lastFn (a :: b :: t) = lastFn (b :: t) := rfl

/-- The loop of `sprint_fun` computes exactly `sprintAux`: the demangled
name of the last function of the maximal all-functioned initial segment
of the frame iteration, or the start accumulator when that segment is
empty. Requires every scanned `raw_name()` to succeed (otherwise the loop
panics). -/
theorem sprintFun_eq (dm : String → Option Nat → String) (frames : List FrameDataM) :
    ∀ s : String, (∀ f ∈ scannedFns frames, ∃ r, f.raw_name = Except.ok r) →
      sprint_fun dm frames s = some (sprintAux dm frames s) := by
  induction frames with
  | nil => intro s _; rfl
  | cons d rest ih =>
    obtain ⟨df⟩ := d
    intro s h
    cases df with
    | none => rfl
    | some f =>
      obtain ⟨rn, lang⟩ := f
      obtain ⟨r, hr⟩ := h ⟨rn, lang⟩ (List.mem_cons_self _ _)
      have hr2 : rn = Except.ok r := hr
      subst hr2
      have hrest : ∀ g ∈ scannedFns rest, ∃ r2, g.raw_name = Except.ok r2 := fun g hg =>
        h g (List.mem_cons_of_mem _ hg)
      have hstep :
          sprint_fun dm (FrameDataM.mk (some ⟨Except.ok r, lang⟩) :: rest) s =
            sprint_fun dm rest (dm r lang) := rfl
      rw [hstep, ih (dm r lang) hrest]
      congr 1
      show sprintAux dm rest (dm r lang) =
        sprintAux dm (FrameDataM.mk (some ⟨Except.ok r, lang⟩) :: rest) s
      unfold sprintAux
      have hskip :
          scannedFns (FrameDataM.mk (some ⟨Except.ok r, lang⟩) :: rest) =
            FunctionM.mk (Except.ok r) lang :: scannedFns rest := rfl
      rw [hskip]
      cases hsc : scannedFns rest with
      | nil => rfl
      | cons g t =>
        rw [lastFn_cons_cons]
        obtain ⟨x, hx⟩ := lastFn_cons g t
        rw [hx]
        simp

/-- Success characterization of `extract_frame`: when the location lookup
succeeds and any found location carries a file, the frame lookup succeeds,
and every scanned raw name is available, the result is the single-symbol
frame whose name is `sprintName` and whose file and line are the fields of
the found location (absent when no location was found). -/
theorem extract_frame_char (dm : String → Option Nat → String) (pc : Nat)
    (ctx : DebugContext) (loc : Option LocationM) (frames : List FrameDataM)
    (hl : ctx.addr_context.find_location pc = .ok loc)
    (hfile : locFileLine loc ≠ none)
    (hf : ctx.addr_context.find_frames pc = .ok frames)
    (hok : ∀ f ∈ scannedFns frames, ∃ r, f.raw_name = Except.ok r) :
    extract_frame dm pc ctx =
      some ⟨[{ name := some (sprintName dm frames),
               line := loc.bind LocationM.line,
               file := loc.bind LocationM.file }]⟩ := by
  have hfl : locFileLine loc = some (loc.bind LocationM.file, loc.bind LocationM.line) := by
    cases loc with
    | none => rfl
    | some l =>
      obtain ⟨lfile, lline⟩ := l
      cases lfile with
      | none => exact absurd rfl hfile
      | some f0 => rfl
  simp only [extract_frame, hl, hfl, hf, sprintFun_eq dm frames "??" hok]
  rfl

/-! Claim C1. -/

/-- C1 counterexample: the tick handler takes the slot mutex with the
blocking `lock()` (`src/lib.rs` line 90). On a contended mutex the tick is
neither dropped nor handled without blocking: the handler waits for the
mutex and then records the sample. This refutes the claim that a
contended tick is dropped and the handler returns immediately. -/
theorem c1_counterexample :
    tickEnvContended.contended = true ∧
    (perf_signal_handler tickEnvContended activeState).1.waited = true ∧
    (perf_signal_handler tickEnvContended activeState).1.recorded = true :=
  ⟨rfl, rfl, rfl⟩

/-- C1 amended: on every tick the handler performs a blocking acquire of
the process-wide slot: it waits exactly when the mutex is contended
(never dropping the tick for contention), and a tick is a recorded-free
no-op only when the slot is absent (given a healthy mutex), in which case
the state is left unchanged. -/
theorem c1_theorem (env : TickEnv) (s : GlobalState) :
    (perf_signal_handler env s).1.waited = env.contended ∧
    (s.slot = none → s.poisoned = false →
      (perf_signal_handler env s).1.recorded = false ∧
      (perf_signal_handler env s).2 = s) := by
  constructor
  · obtain ⟨slot, handler, pois⟩ := s
    cases pois with
    | true => rfl
    | false =>
      cases slot with
      | none => rfl
      | some p =>
        cases hx : extract_frame env.demangle (env.readPC p.machine) p.context with
        | none => simp [perf_signal_handler, hx]
        | some fr => simp [perf_signal_handler, hx]
  · intro h1 h2
    simp [perf_signal_handler, h1, h2]

/-- C1 witness: the amended theorem applied to the healthy inactive state
with a free mutex. -/
theorem c1_witness :
    (perf_signal_handler tickEnvPlain freshState).1.recorded = false ∧
    (perf_signal_handler tickEnvPlain freshState).2 = freshState :=
  (c1_theorem tickEnvPlain freshState).2 rfl rfl

/-! Claim C2. -/

/-- C2 counterexample: a debug context built successfully from an image
(`imgNoFile`) whose location lookup at PC 0 succeeds with a location that
carries no file. The claim says a missing file becomes an absent field;
the source instead panics at `loc.file.as_ref().unwrap()` (line 55),
modelled by `extract_frame` returning `none`. -/
theorem c2_counterexample :
    build_context imgNoFile = .ok ctxNoFile ∧
    ctxNoFile.addr_context.find_location 0 = .ok (some ⟨none, some 5⟩) ∧
    extract_frame dmId 0 ctxNoFile = none :=
  ⟨rfl, rfl, rfl⟩

/-- C2 amended: PC resolution is total provided the location lookup
succeeds, any found location carries a file, the frame lookup and
iteration succeed, and every scanned raw name is available; under those
conditions a missing location yields absent file and line fields and the
result is the single-symbol frame with the `sprint_fun` name. Outside
those conditions `extract_frame` panics (the `unwrap` calls of lines 53,
55, 60, 64 and 67). -/
theorem c2_theorem (dm : String → Option Nat → String) (pc : Nat)
    (ctx : DebugContext) (loc : Option LocationM) (frames : List FrameDataM)
    (hl : ctx.addr_context.find_location pc = .ok loc)
    (hfile : locFileLine loc ≠ none)
    (hf : ctx.addr_context.find_frames pc = .ok frames)
    (hok : ∀ f ∈ scannedFns frames, ∃ r, f.raw_name = Except.ok r) :
    extract_frame dm pc ctx =
      some ⟨[{ name := some (sprintName dm frames),
               line := loc.bind LocationM.line,
               file := loc.bind LocationM.file }]⟩ :=
  extract_frame_char dm pc ctx loc frames hl hfile hf hok

/-- C2 witness: the amended theorem applied to the trivial context whose
lookups succeed and find nothing. -/
theorem c2_witness :
    extract_frame dmId 0 ctxTrivial =
      some ⟨[{ name := some "??", line := none, file := none }]⟩ :=
  c2_theorem dmId 0 ctxTrivial none [] rfl (fun h => Option.noConfusion h) rfl
    (fun f hf => absurd hf (List.not_mem_nil f))

/-! Claim C3. -/

/-- C3 counterexample: stop on an active state whose serialization fails.
The claim says stop still disarms the handler, still clears the slot and
returns the error; the source instead panics at the `expect` of line 190,
leaving the slot populated and the handler installed (and poisoning the
mutex). -/
theorem c3_counterexample :
    stopEnvSerFail.pprofResult = .error "boom" ∧
    (stop_profiler stopEnvSerFail activeState).outcome = .panic ∧
    (stop_profiler stopEnvSerFail activeState).state.slot.isSome = true ∧
    (stop_profiler stopEnvSerFail activeState).state.handler = .installed :=
  ⟨rfl, rfl, rfl, rfl⟩

/-- C3 amended: when stop is called while the profiler is active and
serialization or the artifact write fails, stop panics via `expect`
instead of returning: the tick handler stays installed, the slot stays
populated, and the mutex is poisoned by the panic. -/
theorem c3_theorem (env : StopEnv) (s : GlobalState) (p : Profiler)
    (hpois : s.poisoned = false) (hslot : s.slot = some p)
    (hfail : (∃ e, env.pprofResult = .error e) ∨
             (∃ e, env.writeBytesResult = .error e) ∨
             (∃ e, env.fsWriteResult = .error e)) :
    (stop_profiler env s).outcome = .panic ∧
    (stop_profiler env s).state.slot = s.slot ∧
    (stop_profiler env s).state.handler = s.handler ∧
    (stop_profiler env s).state.poisoned = true := by
  rcases hfail with ⟨e, he⟩ | ⟨e, he⟩ | ⟨e, he⟩
  · simp [stop_profiler, hpois, hslot, he]
  · cases hp : env.pprofResult with
    | error e2 => simp [stop_profiler, hpois, hslot, hp]
    | ok u => simp [stop_profiler, hpois, hslot, hp, he]
  · cases hp : env.pprofResult with
    | error e2 => simp [stop_profiler, hpois, hslot, hp]
    | ok u =>
      cases hw : env.writeBytesResult with
      | error e2 => simp [stop_profiler, hpois, hslot, hp, hw]
      | ok u2 => simp [stop_profiler, hpois, hslot, hp, hw, he]

/-- C3 witness: the amended theorem applied to the active state with a
failing serialization. -/
theorem c3_witness :
    (stop_profiler stopEnvSerFail activeState).outcome = .panic ∧
    (stop_profiler stopEnvSerFail activeState).state.slot = activeState.slot ∧
    (stop_profiler stopEnvSerFail activeState).state.handler = activeState.handler ∧
    (stop_profiler stopEnvSerFail activeState).state.poisoned = true :=
  c3_theorem stopEnvSerFail activeState profilerDummy rfl rfl (Or.inl ⟨"boom", rfl⟩)

/-! Claim C4. -/

/-- C4 counterexample: on the success path of `start_profiler` the claim
asserts that the handler is installed before the timer arms, that the
slot is populated before the timer arms (so before the first possible
tick), and that the `Timer` field is constructed last. The trace of the
source refutes the conjunction: `Timer::new` runs during `Profiler`
construction (line 169), before `Report::default` (line 170) and before
the store into the slot (line 173). -/
theorem c4_counterexample :
    ¬ (eventBefore startSuccessTrace .installHandler .armTimer ∧
       eventBefore startSuccessTrace .populateSlot .armTimer ∧
       eventBefore startSuccessTrace .mkReport .armTimer) := by
  decide

/-- C4 amended: the handler is installed before the timer arms, but the
timer arms during `Profiler` construction, before the `Report` field is
built and before the slot is populated; `start_profiler` indeed produces
this trace on its success path, and a tick delivered in the window before
population finds the slot absent and records nothing, leaving the state
unchanged. -/
theorem c4_theorem :
    eventBefore startSuccessTrace .installHandler .armTimer ∧
    eventBefore startSuccessTrace .armTimer .mkReport ∧
    eventBefore startSuccessTrace .armTimer .populateSlot ∧
    (start_profiler "a" 0 imgOK 1 (Except.ok ()) freshState).trace = startSuccessTrace ∧
    (∀ (env : TickEnv) (h : SigHandlerState),
      (perf_signal_handler env ⟨none, h, false⟩).1.recorded = false ∧
      (perf_signal_handler env ⟨none, h, false⟩).2 = ⟨none, h, false⟩) :=
  ⟨by decide, by decide, by decide, rfl, fun env h => ⟨rfl, rfl⟩⟩

/-! Claim C5. -/

/-- C5 counterexample: a frame lookup that yields exactly one function
(named `b`, necessarily the innermost of the lookup under any iteration
order). The claim says the stored Symbol carries the name of the
innermost function; the loop of `sprint_fun` instead breaks at the first
frame without a function, never reaches `b`, and stores the sentinel. -/
theorem c5_counterexample :
    yieldedFns framesGap = [fnB] ∧
    dmId (rawNameD fnB) fnB.language = "b" ∧
    extract_frame dmId 0 ctxGap =
      some ⟨[{ name := some "??", line := none, file := none }]⟩ ∧
    ("??" : String) ≠ "b" :=
  ⟨rfl, rfl, rfl, by decide⟩

/-- C5 amended: the Symbol of the returned single-element frame carries
`sprintName`: the demangled name of the last function of the maximal
initial segment of the frame iteration in which every frame carries a
function, and the sentinel when that segment is empty. A frame without a
function ends the scan, so functions yielded after such a gap are
ignored; whether the stored function is the innermost depends on the
iteration order of the external library. -/
theorem c5_theorem (dm : String → Option Nat → String) (pc : Nat)
    (ctx : DebugContext) (loc : Option LocationM) (frames : List FrameDataM)
    (hl : ctx.addr_context.find_location pc = .ok loc)
    (hfile : locFileLine loc ≠ none)
    (hf : ctx.addr_context.find_frames pc = .ok frames)
    (hok : ∀ f ∈ scannedFns frames, ∃ r, f.raw_name = Except.ok r) :
    ∃ fr, extract_frame dm pc ctx = some fr ∧
      fr.stacks.map Symbol.name = [some (sprintName dm frames)] :=
  ⟨_, extract_frame_char dm pc ctx loc frames hl hfile hf hok, rfl⟩

/-- C5 witness: the amended theorem applied to a two-frame inline chain;
the scan ends at the second frame and stores the name `b`. -/
theorem c5_witness :
    ∃ fr, extract_frame dmId 0 ctxInline = some fr ∧
      fr.stacks.map Symbol.name = [some (sprintName dmId framesInline)] :=
  c5_theorem dmId 0 ctxInline none framesInline rfl
    (fun h => Option.noConfusion h) rfl
    (by
      intro f hf
      have hf2 : f ∈ [fnA, fnB] := hf
      cases hf2 with
      | head => exact ⟨"a", rfl⟩
      | tail _ h2 =>
        cases h2 with
        | head => exact ⟨"b", rfl⟩
        | tail _ h3 => cases h3)

/-! Claim C6. -/

/-- C6 counterexample: start on an active state. It returns the
already-started error, but the state does not stay inactive: the slot is
still populated and a tick handler is still installed, refuting the
claim that every erroring start leaves the slot absent with no handler
installed. -/
theorem c6_counterexample :
    (start_profiler "f" 0 imgOK 1 (Except.ok ()) activeState).outcome =
      .err "Profiler already started!" ∧
    (start_profiler "f" 0 imgOK 1 (Except.ok ()) activeState).state.slot.isSome = true ∧
    (start_profiler "f" 0 imgOK 1 (Except.ok ()) activeState).state.handler = .installed :=
  ⟨rfl, rfl, rfl⟩

/-- C6 amended: on every input on which start returns an error, the global
state is left exactly unchanged: from an inactive state the slot stays
absent and no handler becomes installed, and in the already-started case
the existing session and its installed handler remain intact. -/
theorem c6_theorem (fname : String) (addr : Nat) (img : Image) (freq : Int)
    (sig : Except String Unit) (s : GlobalState) (e : String)
    (h : (start_profiler fname addr img freq sig s).outcome = .err e) :
    (start_profiler fname addr img freq sig s).state = s := by
  unfold start_profiler at h ⊢
  cases hip : is_profiler_started s with
  | none => rfl
  | some b =>
    cases b with
    | true => rfl
    | false =>
      rw [hip] at h
      cases hb : build_context img with
      | error e2 => rfl
      | ok ctx =>
        rw [hb] at h
        cases hs : sig with
        | error e2 => rfl
        | ok u =>
          rw [hs] at h
          simp at h

/-- C6 witness: the amended theorem applied to the already-started case. -/
theorem c6_witness :
    (start_profiler "f" 0 imgOK 1 (Except.ok ()) activeState).state = activeState :=
  c6_theorem "f" 0 imgOK 1 (Except.ok ()) activeState "Profiler already started!" rfl

/-! Claim C7. -/

/-- C7 counterexample: a location lookup that reports line number zero.
The claim says zero is never stored; the source copies the line verbatim
(lines 56 to 58), so the resolved Symbol carries line zero. -/
theorem c7_counterexample :
    ctxLine0.addr_context.find_location 0 = .ok (some ⟨some "f.c", some 0⟩) ∧
    ((extract_frame dmId 0 ctxLine0).bind fun fr => fr.stacks.head?.bind Symbol.line) =
      some 0 :=
  ⟨rfl, rfl⟩

/-- C7 amended: whenever a location with a file is found (and the rest of
the resolution succeeds), the resolved Symbol stores the line value of
the lookup verbatim, zero included: the code performs no zero or negative
filtering, so line values are 1-based only if the external resolver never
reports other values. -/
theorem c7_theorem (dm : String → Option Nat → String) (pc : Nat)
    (ctx : DebugContext) (l : LocationM) (frames : List FrameDataM)
    (hl : ctx.addr_context.find_location pc = .ok (some l))
    (hfile : l.file.isSome = true)
    (hf : ctx.addr_context.find_frames pc = .ok frames)
    (hok : ∀ f ∈ scannedFns frames, ∃ r, f.raw_name = Except.ok r) :
    extract_frame dm pc ctx =
      some ⟨[{ name := some (sprintName dm frames),
               line := l.line, file := l.file }]⟩ := by
  have hfl : locFileLine (some l) ≠ none := by
    obtain ⟨lfile, lline⟩ := l
    cases lfile with
    | none => exact absurd hfile (by simp)
    | some f0 => exact fun hcontra => Option.noConfusion hcontra
  exact extract_frame_char dm pc ctx (some l) frames hl hfl hf hok

/-- C7 witness: the amended theorem applied to the zero-line context; the
stored line is zero, not absent. -/
theorem c7_witness :
    extract_frame dmId 0 ctxLine0 =
      some ⟨[{ name := some "??", line := some 0, file := some "f.c" }]⟩ :=
  c7_theorem dmId 0 ctxLine0 ⟨some "f.c", some 0⟩ [] rfl rfl rfl
    (fun f hf => absurd hf (List.not_mem_nil f))

/-! Claim C8. -/

/-- C8 counterexample: an image that parses but whose debug records are
malformed and whose debug-frame section is absent. The claim says the
missing-debug-frame failure occurs exactly when the section is absent and
that malformed records yield the dwarf load error; here the section is
absent yet the error is the context creation one (the stages preceding
the debug-frame check fail first, and the dwarf load branch is
unreachable because the section loader closure is infallible). -/
theorem c8_counterexample :
    imgC8.parse = .ok fC8 ∧
    debugFrameData fC8 = none ∧
    build_context imgC8 = .error "context creation error: malformed" ∧
    ("context creation error: malformed" : String) ≠ missingDebugMsg :=
  ⟨rfl, rfl, rfl, by decide⟩

/-- C8 amended: `build_context` fails with the missing-debug-frame
message exactly when the container parses, the addr2line context is
created, and the debug-frame lookup yields no data (section absent or its
data unavailable); a container parse error yields the object-parsing
message; malformed debug records yield the context-creation message (the
dwarf-load branch cannot fire since the section loader closure always
returns Ok); and every failure produces an `Except.error`, never a
context. -/
theorem c8_theorem (img : Image) (f : ParsedFile) (a : AddrContextM) (e : String) :
    (img.parse = .ok f → f.from_dwarf = .ok a →
      ((build_context img = .error missingDebugMsg) ↔ debugFrameData f = none)) ∧
    (img.parse = .error e →
      build_context img = .error ("object parsing error: " ++ e)) ∧
    (img.parse = .ok f → f.from_dwarf = .error e →
      build_context img = .error ("context creation error: " ++ e)) := by
  refine ⟨?_, ?_, ?_⟩
  · intro hp hd
    cases hdf : debugFrameData f with
    | none => simp [build_context, hp, hd, dwarf_load_result, hdf]
    | some d => simp [build_context, hp, hd, dwarf_load_result, hdf]
  · intro hp
    simp [build_context, hp]
  · intro hp hd
    simp [build_context, hp, hd, dwarf_load_result]

/-- C8 witness: the amended theorem applied to three concrete images: one
that builds (its debug-frame data present, so the missing message is
excluded), one whose parse fails, and one with malformed debug records. -/
theorem c8_witness :
    ¬ (build_context imgOK = .error missingDebugMsg) ∧
    build_context imgParseFail = .error ("object parsing error: " ++ "bad") ∧
    build_context imgC8 = .error ("context creation error: " ++ "malformed") :=
  ⟨fun h => Option.noConfusion
      (((c8_theorem imgOK fOK addrCtxTrivial "x").1 rfl rfl).mp h),
   (c8_theorem imgParseFail fOK addrCtxTrivial "bad").2.1 rfl,
   (c8_theorem imgC8 fC8 addrCtxTrivial "malformed").2.2 rfl rfl⟩

/-! Claim C9. -/

/-- C9: every frame `extract_frame` returns contains exactly one Symbol,
and that Symbol always has a present name (the sentinel rather than an
absent field when nothing resolves). -/
theorem c9_theorem (dm : String → Option Nat → String) (pc : Nat)
    (ctx : DebugContext) (fr : Frame)
    (h : extract_frame dm pc ctx = some fr) :
    fr.stacks.length = 1 ∧ ∃ n, fr.stacks.map Symbol.name = [some n] := by
  unfold extract_frame at h
  cases h1 : ctx.addr_context.find_location pc with
  | error e => simp [h1] at h
  | ok loc =>
    simp only [h1] at h
    cases h2 : locFileLine loc with
    | none => simp [h2] at h
    | some fl =>
      simp only [h2] at h
      cases h3 : ctx.addr_context.find_frames pc with
      | error e => simp [h3] at h
      | ok frames =>
        simp only [h3] at h
        cases h4 : sprint_fun dm frames "??" with
        | none => simp [h4] at h
        | some func =>
          simp only [h4, Option.some.injEq] at h
          subst h
          exact ⟨rfl, func, rfl⟩

/-- C9 witness: the theorem applied to the trivial context. -/
theorem c9_witness :
    frameTrivial.stacks.length = 1 ∧
    ∃ n, frameTrivial.stacks.map Symbol.name = [some n] :=
  c9_theorem dmId 0 ctxTrivial frameTrivial rfl

/-! Claim C10. -/

/-- C10: once the slot mutex is poisoned, every public operation and every
tick handler invocation panics (the `expect` at lines 90, 102, 179 and,
through `is_profiler_started`, line 149) instead of returning a boolean
or an error. -/
theorem c10_theorem (s : GlobalState) (env : StopEnv) (tenv : TickEnv)
    (fname : String) (addr : Nat) (img : Image) (freq : Int)
    (sig : Except String Unit) (h : s.poisoned = true) :
    is_profiler_started s = none ∧
    (start_profiler fname addr img freq sig s).outcome = .panic ∧
    (stop_profiler env s).outcome = .panic ∧
    ((perf_signal_handler tenv s).1).outcome = .panic := by
  obtain ⟨slot, handler, pois⟩ := s
  have h2 : pois = true := h
  subst h2
  exact ⟨rfl, rfl, rfl, rfl⟩

/-- C10 witness: the theorem applied to a concrete poisoned state. -/
theorem c10_witness :
    is_profiler_started poisonedState = none ∧
    (start_profiler "f" 0 imgOK 1 (Except.ok ()) poisonedState).outcome = .panic ∧
    (stop_profiler stopEnvOk poisonedState).outcome = .panic ∧
    ((perf_signal_handler tickEnvPlain poisonedState).1).outcome = .panic :=
  c10_theorem poisonedState stopEnvOk tickEnvPlain "f" 0 imgOK 1 (Except.ok ()) rfl

end CkbProfiler
